import Mathlib

/-!
Window resolution of `timeRangeLib` (`SchedulerParser.go`).

A shallow embedding of the window-resolution engine of `timeRangeLib` and the
properties of its entry point `GetTimeRangeWindow`.

Conventions of the embedding:

* `time.Time` is an instant, counted in nanoseconds from Go's zero time
  (January 1 of year 1, 00:00:00 UTC); `Before`, `After`, `Equal`, `IsZero` and
  `Add` only look at the instant.  Go stores an instant in 64-bit seconds and
  `Add` saturates at the ends of that range, some 292 billion years away from
  the zero time; the embedding does not bound instants.  The calendar reading
  of an instant (`Day`, `Month`, `Year`), which in Go depends on the location
  carried by the value, is supplied by the environment.
* `time.Duration` is an `int64` count of nanoseconds; arithmetic on durations
  wraps (`wrapInt64`).
* `error` is its message; `nil` is `none`.
* `SchedulerParser.go` calls several functions of the package that live in
  other files (`ValidateTimeRange`, `getDuration`, `getCron`,
  `isMonthOverlapping`, `isToHourMinuteBeforeWindowEnd`) and the cron library
  (`cron.NewParser(CRON).Parse`, `Schedule.Next`).  They are the fields of
  `Env`; every theorem holds for every environment.
-/

namespace TimeRangeLib

/-! ## Instants and durations -/

/-- An instant: nanoseconds since Go's zero time. -/
abbrev Time := Int

/-- A `time.Duration`: nanoseconds. -/
abbrev Duration := Int

/-- An `error` value, identified with its message. -/
abbrev Error := String

/-- The zero value `time.Time{}`. -/
def zeroTime : Time := 0

/-- Two's complement wrap-around of `int64` arithmetic. -/
def wrapInt64 (x : Int) : Int := (x + 2 ^ 63) % 2 ^ 64 - 2 ^ 63

/-- The constant `time.Hour`. -/
def Hour : Duration := 3600000000000

/-- Go's `t.IsZero()`. -/
def IsZero (t : Time) : Bool := decide (t = zeroTime)

/-- Go's `t.After(u)`. -/
def After (t u : Time) : Bool := decide (u < t)

/-- Go's `t.Before(u)`. -/
def Before (t u : Time) : Bool := decide (t < u)

/-- Go's `t.Equal(u)`. -/
def Equal (t u : Time) : Bool := decide (t = u)

/-- Go's `t.Add(d)`. -/
def Add (t : Time) (d : Duration) : Time := t + d

/-! ## Data model -/

/-- Modelled from the spec: the declaration of the `Frequency` kinds is not in
`SchedulerParser.go`; the spec distinguishes `Fixed` from the recurring kinds,
and the code only ever compares with `Fixed`. -/
inductive Frequency where
  | Fixed : Frequency
  | Recurring (kind : String) : Frequency
  deriving DecidableEq, Repr

/-- Modelled from the spec: the declaration of `TimeRange` is not in
`SchedulerParser.go`.  These are the fields that file reads; the other
fields of the record are only read by the functions collected in `Env`. -/
structure TimeRange where
  TimeFrom : Time
  TimeTo : Time
  DayTo : Int
  Frequency : TimeRangeLib.Frequency
  deriving DecidableEq, Repr

/-- A `cron.Schedule`: the interface with the single method `Next`. -/
structure Schedule where
  Next : Time → Time

/-- The functions `SchedulerParser.go` calls and does not define. -/
structure Env where
  /-- The method `tr.ValidateTimeRange()`. -/
  ValidateTimeRange : TimeRange → Option Error
  /-- The method `tr.getDuration(lastDayOfMonth)`. -/
  getDuration : TimeRange → Int → Duration
  /-- The method `tr.getCron(lastDayOfMonth)`. -/
  getCron : TimeRange → Int → String
  /-- The method `tr.isMonthOverlapping()`. -/
  isMonthOverlapping : TimeRange → Bool
  /-- The method `tr.isToHourMinuteBeforeWindowEnd(targetTime)`. -/
  isToHourMinuteBeforeWindowEnd : TimeRange → Time → Bool
  /-- The cron library: `cron.NewParser(CRON).Parse(cronExp)`. -/
  Parse : String → Except Error Schedule
  /-- Go's `t.Day()`. -/
  Day : Time → Int
  /-- Go's `t.Month()`. -/
  Month : Time → Int
  /-- Go's `t.Year()`. -/
  Year : Time → Int

/-! ## Calendar helpers -/

/-- Gregorian leap years. -/
def isLeapYear (year : Int) : Bool :=
  (year % 4 == 0 && year % 100 != 0) || year % 400 == 0

/-- Modelled from the spec: `getLastDayOfMonth` is not in `SchedulerParser.go`;
the spec describes it as the calendar helper computing the last day of a month
(28 to 31). -/
def getLastDayOfMonth (year : Int) (month : Int) : Int :=
  if month = 2 then (if isLeapYear year then 29 else 28)
  else if month = 4 ∨ month = 6 ∨ month = 9 ∨ month = 11 then 30
  else 31

/-- Modelled from the spec: `getPreviousMonthAndYear` is not in
`SchedulerParser.go`; the spec describes it as stepping a (month, year) pair to
the previous month, January stepping to December of the prior year. -/
def getPreviousMonthAndYear (month : Int) (year : Int) : Int × Int :=
  if month = 1 then (12, year - 1) else (month - 1, year)

/-! ## The code of `SchedulerParser.go` -/

/-- `isTimeInBetween` (lines 110-112). -/
def isTimeInBetween (timeCurrent periodStart periodEnd : Time) : Bool :=
  (After timeCurrent periodStart && Before timeCurrent periodEnd)
    || Equal timeCurrent periodStart

/-- `getWindowForFixedTime` (lines 114-125). -/
def getWindowForFixedTime (targetTime : Time) (timeRange : TimeRange) : Time × Bool :=
  let windowStartOrEnd : Time := zeroTime
  if After targetTime timeRange.TimeTo then
    (windowStartOrEnd, false)
  else if Before targetTime timeRange.TimeFrom then
    (timeRange.TimeFrom, false)
  else if isTimeInBetween targetTime timeRange.TimeFrom timeRange.TimeTo then
    (timeRange.TimeTo, true)
  else
    (windowStartOrEnd, false)

/-- `isInsideOverLap` (lines 100-108). -/
def isInsideOverLap (env : Env) (tr : TimeRange) (targetTime : Time) : Bool :=
  let day := env.Day targetTime
  if day < 1 then
    false
  else
    decide (day < tr.DayTo)
      || (decide (day = tr.DayTo) && env.isToHourMinuteBeforeWindowEnd tr targetTime)

/-- `getMonthAndYearForPreviousWindow` (lines 90-98). -/
def getMonthAndYearForPreviousWindow (env : Env) (tr : TimeRange) (targetTime : Time) :
    Int × Int :=
  let month := env.Month targetTime
  let year := env.Year targetTime
  if env.isMonthOverlapping tr && isInsideOverLap env tr targetTime then
    getPreviousMonthAndYear month year
  else
    (month, year)

/-- `getAdjustedDuration` (lines 78-86).  The receiver and the incoming value
of `prevDuration` are not read. -/
def getAdjustedDuration (env : Env) (_tr : TimeRange) (targetTime : Time)
    (duration : Duration) (_prevDuration : Duration) : Duration :=
  let currentMonth := env.Month targetTime
  let currentYear := env.Year targetTime
  let previous := getPreviousMonthAndYear currentMonth currentYear
  let diff := getLastDayOfMonth currentYear currentMonth
    - getLastDayOfMonth previous.2 previous.1
  wrapInt64 (duration - wrapInt64 (wrapInt64 (diff * Hour) * 24))

/-- `currentTimeMinusWindowDuration` (lines 70-76). -/
def currentTimeMinusWindowDuration (env : Env) (tr : TimeRange) (targetTime : Time)
    (duration : Duration) : Time :=
  let prevDuration := duration
  let prevDuration :=
    if env.isMonthOverlapping tr && !isInsideOverLap env tr targetTime then
      getAdjustedDuration env tr targetTime duration prevDuration
    else
      prevDuration
  Add targetTime (wrapInt64 (-1 * prevDuration))

/-- `getWindowStartAndEndTime` (lines 54-68). -/
def getWindowStartAndEndTime (env : Env) (tr : TimeRange) (targetTime : Time)
    (duration : Duration) (schedule : Schedule) : Time × Time :=
  let timeMinusDuration := currentTimeMinusWindowDuration env tr targetTime duration
  let windowStart := schedule.Next timeMinusDuration
  let windowEnd := Add windowStart duration
  let windowStart :=
    if !IsZero tr.TimeFrom && Before windowStart tr.TimeFrom then tr.TimeFrom else windowStart
  let windowEnd :=
    if !IsZero tr.TimeTo && After windowEnd tr.TimeTo then tr.TimeTo else windowEnd
  (windowStart, windowEnd)

/-- `calculateLastDayOfMonthForOverlappingWindow` (lines 49-52). -/
def calculateLastDayOfMonthForOverlappingWindow (env : Env) (tr : TimeRange)
    (targetTime : Time) : Int :=
  let monthYear := getMonthAndYearForPreviousWindow env tr targetTime
  getLastDayOfMonth monthYear.2 monthYear.1

/-- `getDurationAndCronExp` (lines 42-47). -/
def getDurationAndCronExp (env : Env) (tr : TimeRange) (targetTime : Time) :
    Duration × String :=
  let lastDayOfMonth := calculateLastDayOfMonthForOverlappingWindow env tr targetTime
  (env.getDuration tr lastDayOfMonth, env.getCron tr lastDayOfMonth)

/-- The message built by
`fmt.Errorf("error parsing cron expression %s %v", cronExp, err)`. -/
def parseErrorMessage (cronExp : String) (err : Error) : Error :=
  "error parsing cron expression " ++ cronExp ++ " " ++ err

/-- `getWindowForTargetTime` (lines 30-40): window start, window end, error. -/
def getWindowForTargetTime (env : Env) (tr : TimeRange) (targetTime : Time) :
    Time × Time × Option Error :=
  let dc := getDurationAndCronExp env tr targetTime
  match env.Parse dc.2 with
  | .error err => (zeroTime, zeroTime, some (parseErrorMessage dc.2 err))
  | .ok schedule =>
    let w := getWindowStartAndEndTime env tr targetTime dc.1 schedule
    (w.1, w.2, none)

/-- `GetTimeRangeWindow` (lines 9-28): next window edge, `isTimeBetween`, error.
The named results `nextWindowEdge` and `isTimeBetween` hold their zero values
on the two error returns. -/
def GetTimeRangeWindow (env : Env) (tr : TimeRange) (targetTime : Time) :
    Time × Bool × Option Error :=
  match env.ValidateTimeRange tr with
  | some err => (zeroTime, false, some err)
  | none =>
    if tr.Frequency = Frequency.Fixed then
      let r := getWindowForFixedTime targetTime tr
      (r.1, r.2, none)
    else
      match getWindowForTargetTime env tr targetTime with
      | (_, _, some err) => (zeroTime, false, some err)
      | (windowStart, windowEnd, none) =>
        if isTimeInBetween targetTime windowStart windowEnd then
          (windowEnd, true, none)
        else
          (windowStart, false, none)

/-! ## A concrete environment: a one-hour window at every midnight UTC

The general theorems below hold for every `Env`.  The instances here give the
concrete inputs at which they are exercised: the UTC reading of the calendar,
the cron schedule `0 0 * * *`, and the bound checks of validation. -/

/-- One calendar day, in nanoseconds. -/
def dayNanos : Int := 24 * Hour

/-- The instant of the UTC civil time `year-month-day hour:minute`
(proleptic Gregorian calendar, counted from the zero time). -/
def utc (year month day hour minute : Int) : Time :=
  let y := if month ≤ 2 then year - 1 else year
  let era := y / 400
  let yoe := y - era * 400
  let mp := (month + 9) % 12
  let doy := (153 * mp + 2) / 5 + day - 1
  let doe := yoe * 365 + yoe / 4 - yoe / 100 + doy
  (era * 146097 + doe - 306) * dayNanos + hour * Hour + minute * 60000000000

/-- The UTC civil date (year, month, day) of an instant. -/
def utcDate (t : Time) : Int × Int × Int :=
  let z := t / dayNanos + 306
  let era := z / 146097
  let doe := z - era * 146097
  let yoe := (doe - doe / 1460 + doe / 36524 - doe / 146096) / 365
  let doy := doe - (365 * yoe + yoe / 4 - yoe / 100)
  let mp := (5 * doy + 2) / 153
  let d := doy - (153 * mp + 2) / 5 + 1
  let m := if mp < 10 then mp + 3 else mp - 9
  (if m ≤ 2 then yoe + era * 400 + 1 else yoe + era * 400, m, d)

/-- The schedule of the rule `0 0 * * *` read in UTC: `Next` is the first
midnight strictly after the probe. -/
def midnightUTC : Schedule :=
  ⟨fun probe => (probe / dayNanos + 1) * dayNanos⟩

/-- Modelled from the spec: `ValidateTimeRange` is not in `SchedulerParser.go`;
these are the bound checks of the spec's validation section: for `Fixed` both
bounds are present and ordered, for the recurring kinds the bounds are ordered
when both are present. -/
def validateBounds (tr : TimeRange) : Option Error :=
  if tr.Frequency = Frequency.Fixed then
    if IsZero tr.TimeFrom || IsZero tr.TimeTo then
      some "timeFrom and timeTo must be present for a Fixed frequency"
    else if After tr.TimeFrom tr.TimeTo then
      some "timeFrom must be less than or equal to timeTo"
    else
      none
  else if !IsZero tr.TimeFrom && !IsZero tr.TimeTo && After tr.TimeFrom tr.TimeTo then
    some "timeFrom must be less than or equal to timeTo"
  else
    none

/-- The environment of a daily schedule: a window of one hour starting at every
midnight UTC, not month-overlapping. -/
def dailyEnv : Env where
  ValidateTimeRange := validateBounds
  getDuration := fun _ _ => Hour
  getCron := fun _ _ => "0 0 * * *"
  isMonthOverlapping := fun _ => false
  isToHourMinuteBeforeWindowEnd := fun _ _ => false
  Parse := fun cronExp =>
    if cronExp = "0 0 * * *" then .ok midnightUTC
    else .error "expected exactly 5 fields"
  Day := fun t => (utcDate t).2.2
  Month := fun t => (utcDate t).2.1
  Year := fun t => (utcDate t).1

/-- The Fixed window of January 2023: 2023-01-01T00:00Z to 2023-01-31T23:59Z. -/
def january2023 : TimeRange :=
  ⟨utc 2023 1 1 0 0, utc 2023 1 31 23 59, 0, Frequency.Fixed⟩

/-- A recurring range without validity bounds. -/
def nightly : TimeRange :=
  ⟨zeroTime, zeroTime, 0, Frequency.Recurring "Daily"⟩

/-- A recurring range valid from 2023-01-10T00:00Z to 2023-01-20T00:00Z. -/
def nightlyBounded : TimeRange :=
  ⟨utc 2023 1 10 0 0, utc 2023 1 20 0 0, 0, Frequency.Recurring "Daily"⟩

/-- A recurring range valid from 2023-01-10T12:00Z on, with no upper bound. -/
def nightlySince : TimeRange :=
  ⟨utc 2023 1 10 12 0, zeroTime, 0, Frequency.Recurring "Daily"⟩

/-- A recurring range valid until 2023-01-10T00:30Z, with no lower bound. -/
def nightlyUntil : TimeRange :=
  ⟨zeroTime, utc 2023 1 10 0 30, 0, Frequency.Recurring "Daily"⟩

/-- A Fixed range whose bounds are in the wrong order; validation rejects it. -/
def reversedJanuary : TimeRange :=
  ⟨utc 2023 1 31 23 59, utc 2023 1 1 0 0, 0, Frequency.Fixed⟩

/-- The daily environment with a rule string the cron parser rejects. -/
def brokenRuleEnv : Env :=
  { dailyEnv with getCron := fun _ _ => "every night" }

/-- The evaluator contract of the spec: `Next` returns the earliest scheduled
instant strictly after the probe.  For the `Next` of a set of scheduled
instants this says that the result is after the probe and that every probe
between `p` and `Next p` has the same result. -/
def Schedule.EarliestAfter (schedule : Schedule) : Prop :=
  (∀ p : Time, p < schedule.Next p) ∧
    ∀ p q : Time, p ≤ q → q < schedule.Next p → schedule.Next q = schedule.Next p

/-! ## A concrete month-overlapping environment

A window that opens on the 28th of every month at 06:00 UTC and closes on the
3rd of the following month at 06:00 UTC: its length depends on the length of
the month it opens in. -/

/-- The schedule of the rule `0 6 28 * *` read in UTC: `Next` is the first 28th
of a month, 06:00, strictly after the probe. -/
def monthly28th : Schedule :=
  ⟨fun probe =>
    let date := utcDate probe
    let candidate := utc date.1 date.2.1 28 6 0
    if probe < candidate then candidate
    else if date.2.1 = 12 then utc (date.1 + 1) 1 28 6 0
    else utc date.1 (date.2.1 + 1) 28 6 0⟩

/-- The environment of the month-end window: from the 28th to the 3rd of the
next month, so `lastDayOfMonth - 25` days long, month-overlapping, with the
window-end cutoff at 06:00. -/
def monthEndEnv : Env where
  ValidateTimeRange := validateBounds
  getDuration := fun _ lastDayOfMonth => (lastDayOfMonth - 25) * dayNanos
  getCron := fun _ _ => "0 6 28 * *"
  isMonthOverlapping := fun _ => true
  isToHourMinuteBeforeWindowEnd := fun _ t => decide (t % dayNanos < 6 * Hour)
  Parse := fun cronExp =>
    if cronExp = "0 6 28 * *" then .ok monthly28th
    else .error "expected exactly 5 fields"
  Day := fun t => (utcDate t).2.2
  Month := fun t => (utcDate t).2.1
  Year := fun t => (utcDate t).1

/-- The month-end range: no validity bounds, `dayTo = 3`. -/
def monthEnd : TimeRange :=
  ⟨zeroTime, zeroTime, 3, Frequency.Recurring "Monthly"⟩

/-- The daily environment with a calendar that reads every instant as
2023-01-10: it agrees with `dailyEnv` on the instants of that day only. -/
def dailyEnvFrozen : Env :=
  { dailyEnv with Day := fun _ => 10, Month := fun _ => 1, Year := fun _ => 2023 }

/-! ## Fixed windows -/

/-- The result of `getWindowForFixedTime` in terms of the order of the three
instants. -/
theorem getWindowForFixedTime_eq (t : Time) (tr : TimeRange) :
    getWindowForFixedTime t tr =
      if tr.TimeTo < t then (zeroTime, false)
      else if t < tr.TimeFrom then (tr.TimeFrom, false)
      else if (tr.TimeFrom < t ∧ t < tr.TimeTo) ∨ t = tr.TimeFrom then (tr.TimeTo, true)
      else (zeroTime, false) := by
  simp [getWindowForFixedTime, isTimeInBetween, After, Before, Equal]

/-- On a Fixed range that passes validation the entry point is
`getWindowForFixedTime` with a nil error. -/
theorem GetTimeRangeWindow_fixed (env : Env) (tr : TimeRange) (t : Time)
    (hv : env.ValidateTimeRange tr = none) (hf : tr.Frequency = Frequency.Fixed) :
    GetTimeRangeWindow env tr t =
      ((getWindowForFixedTime t tr).1, (getWindowForFixedTime t tr).2, none) := by
  simp [GetTimeRangeWindow, hv, hf]

/-- C1 (as stated, refuted): on the Fixed window of January 2023, which passes
validation, the target `timeTo` itself lies in `[timeFrom, timeTo]` and the
result is `(zero time, false, nil)`, not `(timeTo, true, nil)`. -/
theorem fixed_at_timeTo_is_outside :
    dailyEnv.ValidateTimeRange january2023 = none
      ∧ january2023.Frequency = Frequency.Fixed
      ∧ january2023.TimeFrom ≠ zeroTime ∧ january2023.TimeTo ≠ zeroTime
      ∧ january2023.TimeFrom ≤ january2023.TimeTo
      ∧ january2023.TimeFrom ≤ utc 2023 1 31 23 59
      ∧ utc 2023 1 31 23 59 ≤ january2023.TimeTo
      ∧ GetTimeRangeWindow dailyEnv january2023 (utc 2023 1 31 23 59)
          = (zeroTime, false, none)
      ∧ GetTimeRangeWindow dailyEnv january2023 (utc 2023 1 31 23 59)
          ≠ (january2023.TimeTo, true, none) := by
  decide

/-- C1 (amended): for a Fixed range that passes validation and a target with
`timeFrom ≤ targetTime ≤ timeTo` (so that `timeFrom ≤ timeTo`), the
result is `(timeTo, true, nil)` when `targetTime < timeTo` or
`targetTime = timeFrom`, and `(zero time, false, nil)` otherwise, that is at
`targetTime = timeTo` when `timeFrom < timeTo`. -/
theorem GetTimeRangeWindow_fixed_inside (env : Env) (tr : TimeRange) (t : Time)
    (hv : env.ValidateTimeRange tr = none) (hf : tr.Frequency = Frequency.Fixed)
    (h1 : tr.TimeFrom ≤ t) (h2 : t ≤ tr.TimeTo) :
    GetTimeRangeWindow env tr t =
      if t < tr.TimeTo ∨ t = tr.TimeFrom then (tr.TimeTo, true, none)
      else (zeroTime, false, none) := by
  rw [GetTimeRangeWindow_fixed env tr t hv hf, getWindowForFixedTime_eq]
  have h3 : ¬ tr.TimeTo < t := by unfold Time at *; omega
  have h4 : ¬ t < tr.TimeFrom := by unfold Time at *; omega
  simp only [h3, h4, if_false]
  by_cases h5 : t < tr.TimeTo ∨ t = tr.TimeFrom
  · have h6 : (tr.TimeFrom < t ∧ t < tr.TimeTo) ∨ t = tr.TimeFrom := by unfold Time at *; omega
    simp [h5, h6]
  · have h6 : ¬ ((tr.TimeFrom < t ∧ t < tr.TimeTo) ∨ t = tr.TimeFrom) := by unfold Time at *; omega
    simp [h5, h6]

/-- The amended C1 at 2023-01-15T12:00Z inside the January 2023 window. -/
theorem GetTimeRangeWindow_fixed_inside_witness :
    GetTimeRangeWindow dailyEnv january2023 (utc 2023 1 15 12 0) =
      if utc 2023 1 15 12 0 < january2023.TimeTo ∨ utc 2023 1 15 12 0 = january2023.TimeFrom
      then (january2023.TimeTo, true, none) else (zeroTime, false, none) :=
  GetTimeRangeWindow_fixed_inside dailyEnv january2023 (utc 2023 1 15 12 0)
    (by decide) (by decide) (by decide) (by decide)

/-- C2: for a Fixed range that passes validation and a target strictly after
`timeTo`, the result is `(zero time, false, nil)`. -/
theorem GetTimeRangeWindow_fixed_after (env : Env) (tr : TimeRange) (t : Time)
    (hv : env.ValidateTimeRange tr = none) (hf : tr.Frequency = Frequency.Fixed)
    (h : tr.TimeTo < t) :
    GetTimeRangeWindow env tr t = (zeroTime, false, none) := by
  rw [GetTimeRangeWindow_fixed env tr t hv hf, getWindowForFixedTime_eq]
  simp [h]

/-- C2 at the spec's example: the January 2023 window evaluated at
2023-02-01T00:00Z. -/
theorem GetTimeRangeWindow_fixed_after_witness :
    january2023.TimeTo < utc 2023 2 1 0 0
      ∧ GetTimeRangeWindow dailyEnv january2023 (utc 2023 2 1 0 0) = (zeroTime, false, none) :=
  ⟨by decide,
    GetTimeRangeWindow_fixed_after dailyEnv january2023 (utc 2023 2 1 0 0)
      (by decide) (by decide) (by decide)⟩

/-- C3: for a Fixed range that passes validation, with `timeFrom ≤ timeTo`, and
a target strictly before `timeFrom`, the result is `(timeFrom, false, nil)`. -/
theorem GetTimeRangeWindow_fixed_before (env : Env) (tr : TimeRange) (t : Time)
    (hv : env.ValidateTimeRange tr = none) (hf : tr.Frequency = Frequency.Fixed)
    (hle : tr.TimeFrom ≤ tr.TimeTo) (h : t < tr.TimeFrom) :
    GetTimeRangeWindow env tr t = (tr.TimeFrom, false, none) := by
  rw [GetTimeRangeWindow_fixed env tr t hv hf, getWindowForFixedTime_eq]
  have h3 : ¬ tr.TimeTo < t := by unfold Time at *; omega
  simp [h3, h]

/-- C3 at 2022-12-31T00:00Z, the day before the January 2023 window. -/
theorem GetTimeRangeWindow_fixed_before_witness :
    utc 2022 12 31 0 0 < january2023.TimeFrom
      ∧ GetTimeRangeWindow dailyEnv january2023 (utc 2022 12 31 0 0)
          = (january2023.TimeFrom, false, none) :=
  ⟨by decide,
    GetTimeRangeWindow_fixed_before dailyEnv january2023 (utc 2022 12 31 0 0)
      (by decide) (by decide) (by decide) (by decide)⟩

/-! ## Recurring windows -/

/-- When the rule parses, `getWindowForTargetTime` is the clipped window of
`getWindowStartAndEndTime` with a nil error. -/
theorem getWindowForTargetTime_ok (env : Env) (tr : TimeRange) (t : Time)
    (schedule : Schedule)
    (hp : env.Parse (getDurationAndCronExp env tr t).2 = .ok schedule) :
    getWindowForTargetTime env tr t =
      ((getWindowStartAndEndTime env tr t (getDurationAndCronExp env tr t).1 schedule).1,
        (getWindowStartAndEndTime env tr t (getDurationAndCronExp env tr t).1 schedule).2,
        none) := by
  simp [getWindowForTargetTime, hp]

/-- When the rule does not parse, `getWindowForTargetTime` is two zero times
and the wrapped error. -/
theorem getWindowForTargetTime_error (env : Env) (tr : TimeRange) (t : Time)
    (err : Error)
    (hp : env.Parse (getDurationAndCronExp env tr t).2 = .error err) :
    getWindowForTargetTime env tr t =
      (zeroTime, zeroTime,
        some (parseErrorMessage (getDurationAndCronExp env tr t).2 err)) := by
  simp [getWindowForTargetTime, hp]

/-- On a recurring range that passes validation the entry point classifies the
target against the window of `getWindowForTargetTime`. -/
theorem GetTimeRangeWindow_of_window (env : Env) (tr : TimeRange) (t : Time)
    (windowStart windowEnd : Time)
    (hv : env.ValidateTimeRange tr = none) (hf : tr.Frequency ≠ Frequency.Fixed)
    (hw : getWindowForTargetTime env tr t = (windowStart, windowEnd, none)) :
    GetTimeRangeWindow env tr t =
      if isTimeInBetween t windowStart windowEnd then (windowEnd, true, none)
      else (windowStart, false, none) := by
  simp [GetTimeRangeWindow, hv, hf, hw]

/-- The clipped window in terms of the evaluator's result. -/
theorem getWindowStartAndEndTime_eq (env : Env) (tr : TimeRange) (t : Time)
    (duration : Duration) (schedule : Schedule) :
    getWindowStartAndEndTime env tr t duration schedule =
      (if tr.TimeFrom ≠ zeroTime
            ∧ schedule.Next (currentTimeMinusWindowDuration env tr t duration) < tr.TimeFrom
        then tr.TimeFrom
        else schedule.Next (currentTimeMinusWindowDuration env tr t duration),
       if tr.TimeTo ≠ zeroTime
            ∧ tr.TimeTo < schedule.Next (currentTimeMinusWindowDuration env tr t duration)
                + duration
        then tr.TimeTo
        else schedule.Next (currentTimeMinusWindowDuration env tr t duration) + duration) := by
  simp [getWindowStartAndEndTime, IsZero, Before, After, Add]

/-- C4: for a recurring range that passes validation and whose rule parses,
`getWindowForTargetTime` returns the clipped window `(windowStart, windowEnd)`
of `getWindowStartAndEndTime`, and `GetTimeRangeWindow` returns
`(windowEnd, true, nil)` when `isTimeInBetween targetTime windowStart windowEnd`
holds and `(windowStart, false, nil)` otherwise. -/
theorem GetTimeRangeWindow_recurring (env : Env) (tr : TimeRange) (t : Time)
    (schedule : Schedule)
    (hv : env.ValidateTimeRange tr = none) (hf : tr.Frequency ≠ Frequency.Fixed)
    (hp : env.Parse (getDurationAndCronExp env tr t).2 = .ok schedule) :
    getWindowForTargetTime env tr t =
        ((getWindowStartAndEndTime env tr t (getDurationAndCronExp env tr t).1 schedule).1,
          (getWindowStartAndEndTime env tr t (getDurationAndCronExp env tr t).1 schedule).2,
          none)
      ∧ GetTimeRangeWindow env tr t =
        if isTimeInBetween t
            (getWindowStartAndEndTime env tr t (getDurationAndCronExp env tr t).1 schedule).1
            (getWindowStartAndEndTime env tr t (getDurationAndCronExp env tr t).1 schedule).2
        then
          ((getWindowStartAndEndTime env tr t (getDurationAndCronExp env tr t).1 schedule).2,
            true, none)
        else
          ((getWindowStartAndEndTime env tr t (getDurationAndCronExp env tr t).1 schedule).1,
            false, none) :=
  ⟨getWindowForTargetTime_ok env tr t schedule hp,
    GetTimeRangeWindow_of_window env tr t _ _ hv hf
      (getWindowForTargetTime_ok env tr t schedule hp)⟩

/-- C4 on the unbounded nightly range: inside the window at 00:30 the result is
the window end 01:00, outside at 12:00 it is the next start. -/
theorem GetTimeRangeWindow_recurring_witness :
    GetTimeRangeWindow dailyEnv nightly (utc 2023 1 10 0 30)
        = (utc 2023 1 10 1 0, true, none)
      ∧ GetTimeRangeWindow dailyEnv nightly (utc 2023 1 10 12 0)
        = (utc 2023 1 11 0 0, false, none) :=
  ⟨(GetTimeRangeWindow_recurring dailyEnv nightly (utc 2023 1 10 0 30) midnightUTC
      (by decide) (by decide) rfl).2.trans (by decide),
    (GetTimeRangeWindow_recurring dailyEnv nightly (utc 2023 1 10 12 0) midnightUTC
      (by decide) (by decide) rfl).2.trans (by decide)⟩

/-- C5: `getWindowStartAndEndTime` returns `(start, end)` where, with `s` the
evaluator's result at the probe point, `start` is `timeFrom` if `timeFrom` is
set and `s < timeFrom` and `s` otherwise, and `end` is `timeTo` if `timeTo` is
set and `s + duration > timeTo` and `s + duration` otherwise.  With both bounds
zero `end = start + duration`; a set `timeFrom` is at most `start` and a set
`timeTo` is at least `end`. -/
theorem getWindowStartAndEndTime_clip (env : Env) (tr : TimeRange) (t : Time)
    (duration : Duration) (schedule : Schedule) :
    (getWindowStartAndEndTime env tr t duration schedule).1 =
        (if tr.TimeFrom ≠ zeroTime
              ∧ schedule.Next (currentTimeMinusWindowDuration env tr t duration) < tr.TimeFrom
          then tr.TimeFrom
          else schedule.Next (currentTimeMinusWindowDuration env tr t duration))
      ∧ (getWindowStartAndEndTime env tr t duration schedule).2 =
        (if tr.TimeTo ≠ zeroTime
              ∧ tr.TimeTo < schedule.Next (currentTimeMinusWindowDuration env tr t duration)
                  + duration
          then tr.TimeTo
          else schedule.Next (currentTimeMinusWindowDuration env tr t duration) + duration)
      ∧ (tr.TimeFrom = zeroTime → tr.TimeTo = zeroTime →
          (getWindowStartAndEndTime env tr t duration schedule).2 =
            (getWindowStartAndEndTime env tr t duration schedule).1 + duration)
      ∧ (tr.TimeFrom ≠ zeroTime →
          tr.TimeFrom ≤ (getWindowStartAndEndTime env tr t duration schedule).1)
      ∧ (tr.TimeTo ≠ zeroTime →
          (getWindowStartAndEndTime env tr t duration schedule).2 ≤ tr.TimeTo) := by
  rw [getWindowStartAndEndTime_eq]
  refine ⟨rfl, rfl, ?_, ?_, ?_⟩
  · intro h1 h2
    simp [h1, h2]
  · intro h1
    dsimp only
    split_ifs with h2
    · exact le_refl _
    · exact not_lt.mp (fun h3 => h2 ⟨h1, h3⟩)
  · intro h1
    dsimp only
    split_ifs with h2
    · exact le_refl _
    · exact not_lt.mp (fun h3 => h2 ⟨h1, h3⟩)

/-- C5 on the bounded nightly range at 2023-01-10T00:30Z: the occurrence
00:00-01:00 lies inside the bounds and is returned unclipped; on the unbounded
range the end is the start plus the duration. -/
theorem getWindowStartAndEndTime_clip_witness :
    getWindowStartAndEndTime dailyEnv nightlyBounded (utc 2023 1 10 0 30) Hour midnightUTC
        = (utc 2023 1 10 0 0, utc 2023 1 10 1 0)
      ∧ nightlyBounded.TimeFrom
          ≤ (getWindowStartAndEndTime dailyEnv nightlyBounded (utc 2023 1 10 0 30) Hour
              midnightUTC).1
      ∧ (getWindowStartAndEndTime dailyEnv nightlyBounded (utc 2023 1 10 0 30) Hour
              midnightUTC).2 ≤ nightlyBounded.TimeTo
      ∧ (getWindowStartAndEndTime dailyEnv nightly (utc 2023 1 10 0 30) Hour midnightUTC).2
          = (getWindowStartAndEndTime dailyEnv nightly (utc 2023 1 10 0 30) Hour midnightUTC).1
              + Hour :=
  ⟨by decide,
    (getWindowStartAndEndTime_clip dailyEnv nightlyBounded (utc 2023 1 10 0 30) Hour
      midnightUTC).2.2.2.1 (by decide),
    (getWindowStartAndEndTime_clip dailyEnv nightlyBounded (utc 2023 1 10 0 30) Hour
      midnightUTC).2.2.2.2 (by decide),
    (getWindowStartAndEndTime_clip dailyEnv nightly (utc 2023 1 10 0 30) Hour
      midnightUTC).2.2.1 (by decide) (by decide)⟩

/-- Both ends of the clipped window against the validity bounds, in terms of
the evaluator's result `s`: the start is at least a set `timeFrom`, the end at
most a set `timeTo`; the start is at most `timeTo` when `s` is, and the end is
at least `timeFrom` when `s + duration` is. -/
theorem getWindowStartAndEndTime_bounds (env : Env) (tr : TimeRange) (t : Time)
    (duration : Duration) (schedule : Schedule)
    (hF : tr.TimeFrom ≠ zeroTime) (hT : tr.TimeTo ≠ zeroTime)
    (hle : tr.TimeFrom ≤ tr.TimeTo) :
    tr.TimeFrom ≤ (getWindowStartAndEndTime env tr t duration schedule).1
      ∧ (getWindowStartAndEndTime env tr t duration schedule).2 ≤ tr.TimeTo
      ∧ (schedule.Next (currentTimeMinusWindowDuration env tr t duration) ≤ tr.TimeTo →
          (getWindowStartAndEndTime env tr t duration schedule).1 ≤ tr.TimeTo)
      ∧ (tr.TimeFrom ≤ schedule.Next (currentTimeMinusWindowDuration env tr t duration)
            + duration →
          tr.TimeFrom ≤ (getWindowStartAndEndTime env tr t duration schedule).2) := by
  rw [getWindowStartAndEndTime_eq]
  dsimp only
  generalize schedule.Next (currentTimeMinusWindowDuration env tr t duration) = s
  unfold Time Duration at *
  refine ⟨?_, ?_, ?_, ?_⟩
  · split_ifs with h <;> omega
  · split_ifs with h <;> omega
  · intro h1
    split_ifs with h <;> omega
  · intro h1
    split_ifs with h <;> omega

/-- C6 (the code at the failing input): the nightly range valid from
2023-01-10 to 2023-01-20 passes validation with both bounds set and ordered;
at 2023-02-01T12:00Z, after `timeTo`, the clipped window starts at
2023-02-02T00:00Z, outside `[timeFrom, timeTo]`, and that start is the boundary
`GetTimeRangeWindow` returns. -/
theorem clipped_window_start_after_timeTo :
    dailyEnv.ValidateTimeRange nightlyBounded = none
      ∧ nightlyBounded.Frequency ≠ Frequency.Fixed
      ∧ nightlyBounded.TimeFrom ≠ zeroTime ∧ nightlyBounded.TimeTo ≠ zeroTime
      ∧ nightlyBounded.TimeFrom ≤ nightlyBounded.TimeTo
      ∧ getWindowStartAndEndTime dailyEnv nightlyBounded (utc 2023 2 1 12 0) Hour midnightUTC
          = (utc 2023 2 2 0 0, utc 2023 1 20 0 0)
      ∧ ¬ (getWindowStartAndEndTime dailyEnv nightlyBounded (utc 2023 2 1 12 0) Hour
            midnightUTC).1 ≤ nightlyBounded.TimeTo
      ∧ GetTimeRangeWindow dailyEnv nightlyBounded (utc 2023 2 1 12 0)
          = (utc 2023 2 2 0 0, false, none)
      ∧ ¬ (GetTimeRangeWindow dailyEnv nightlyBounded (utc 2023 2 1 12 0)).1
          ≤ nightlyBounded.TimeTo := by
  decide

/-- Where the clipping does keep the window inside the bounds: for a recurring
range that passes validation, with both bounds set and `timeFrom ≤ timeTo`, and
whose rule parses, the clipped window has its start at or after `timeFrom` and its end at or before `timeTo`; when
the occurrence `[s, s + duration]` found by the evaluator meets the bounds
(`s ≤ timeTo` and `timeFrom ≤ s + duration`), the start, the end and the
boundary returned by `GetTimeRangeWindow` all lie in `[timeFrom, timeTo]`. -/
theorem clipped_window_within_bounds (env : Env) (tr : TimeRange) (t : Time)
    (schedule : Schedule)
    (hv : env.ValidateTimeRange tr = none) (hf : tr.Frequency ≠ Frequency.Fixed)
    (hp : env.Parse (getDurationAndCronExp env tr t).2 = .ok schedule)
    (hF : tr.TimeFrom ≠ zeroTime) (hT : tr.TimeTo ≠ zeroTime)
    (hle : tr.TimeFrom ≤ tr.TimeTo) :
    tr.TimeFrom
        ≤ (getWindowStartAndEndTime env tr t (getDurationAndCronExp env tr t).1 schedule).1
      ∧ (getWindowStartAndEndTime env tr t (getDurationAndCronExp env tr t).1 schedule).2
        ≤ tr.TimeTo
      ∧ (schedule.Next
            (currentTimeMinusWindowDuration env tr t (getDurationAndCronExp env tr t).1)
            ≤ tr.TimeTo →
          tr.TimeFrom
            ≤ schedule.Next
                (currentTimeMinusWindowDuration env tr t (getDurationAndCronExp env tr t).1)
              + (getDurationAndCronExp env tr t).1 →
          (getWindowStartAndEndTime env tr t (getDurationAndCronExp env tr t).1 schedule).1
              ≤ tr.TimeTo
            ∧ tr.TimeFrom
              ≤ (getWindowStartAndEndTime env tr t (getDurationAndCronExp env tr t).1
                  schedule).2
            ∧ tr.TimeFrom ≤ (GetTimeRangeWindow env tr t).1
            ∧ (GetTimeRangeWindow env tr t).1 ≤ tr.TimeTo) := by
  obtain ⟨h1, h2, h3, h4⟩ :=
    getWindowStartAndEndTime_bounds env tr t (getDurationAndCronExp env tr t).1 schedule
      hF hT hle
  refine ⟨h1, h2, fun hs he => ⟨h3 hs, h4 he, ?_⟩⟩
  rw [GetTimeRangeWindow_of_window env tr t _ _ hv hf
    (getWindowForTargetTime_ok env tr t schedule hp)]
  split_ifs with hb
  · exact ⟨h4 he, h2⟩
  · exact ⟨h1, h3 hs⟩

/-- The bounds of the clipped window on the bounded nightly range at
2023-01-10T00:30Z, inside the occurrence 00:00-01:00 that starts on
`timeFrom`. -/
theorem clipped_window_within_bounds_witness :
    nightlyBounded.TimeFrom
        ≤ (getWindowStartAndEndTime dailyEnv nightlyBounded (utc 2023 1 10 0 30) Hour
            midnightUTC).1
      ∧ (getWindowStartAndEndTime dailyEnv nightlyBounded (utc 2023 1 10 0 30) Hour
            midnightUTC).2 ≤ nightlyBounded.TimeTo
      ∧ nightlyBounded.TimeFrom
        ≤ (GetTimeRangeWindow dailyEnv nightlyBounded (utc 2023 1 10 0 30)).1
      ∧ (GetTimeRangeWindow dailyEnv nightlyBounded (utc 2023 1 10 0 30)).1
        ≤ nightlyBounded.TimeTo :=
  have h := clipped_window_within_bounds dailyEnv nightlyBounded (utc 2023 1 10 0 30)
    midnightUTC (by decide) (by decide) rfl (by decide) (by decide) (by decide)
  ⟨h.1, h.2.1, (h.2.2 (by decide) (by decide)).2.2.1, (h.2.2 (by decide) (by decide)).2.2.2⟩

/-- C8 (the code at the failing inputs): on the nightly range valid until
2023-01-10T00:30Z, which passes validation, the target 00:45 of that day gets
`isTimeBetween = false` with the non-zero boundary 00:00 of that day, which is
before the target; the target 2023-01-11T00:00Z gets `isTimeBetween = true`
with the boundary 2023-01-10T00:30Z, which is before the target. -/
theorem recurring_boundary_before_target :
    dailyEnv.ValidateTimeRange nightlyUntil = none
      ∧ GetTimeRangeWindow dailyEnv nightlyUntil (utc 2023 1 10 0 45)
          = (utc 2023 1 10 0 0, false, none)
      ∧ utc 2023 1 10 0 0 ≠ zeroTime
      ∧ ¬ utc 2023 1 10 0 45 < utc 2023 1 10 0 0
      ∧ GetTimeRangeWindow dailyEnv nightlyUntil (utc 2023 1 11 0 0)
          = (utc 2023 1 10 0 30, true, none)
      ∧ utc 2023 1 10 0 30 ≠ zeroTime
      ∧ utc 2023 1 10 0 30 < utc 2023 1 11 0 0 := by
  decide

/-! ## Errors -/

/-- C9: when `ValidateTimeRange` returns an error, `GetTimeRangeWindow` returns
the zero time, `false` and exactly that error, for every target time and
whatever the other collaborators are. -/
theorem GetTimeRangeWindow_invalid (env : Env) (tr : TimeRange) (t : Time) (err : Error)
    (hv : env.ValidateTimeRange tr = some err) :
    GetTimeRangeWindow env tr t = (zeroTime, false, some err) := by
  simp [GetTimeRangeWindow, hv]

/-- C9 on the Fixed range with reversed bounds. -/
theorem GetTimeRangeWindow_invalid_witness :
    dailyEnv.ValidateTimeRange reversedJanuary
        = some "timeFrom must be less than or equal to timeTo"
      ∧ GetTimeRangeWindow dailyEnv reversedJanuary (utc 2023 1 15 12 0)
        = (zeroTime, false, some "timeFrom must be less than or equal to timeTo") :=
  ⟨by decide,
    GetTimeRangeWindow_invalid dailyEnv reversedJanuary (utc 2023 1 15 12 0) _ (by decide)⟩

/-- The wrapped parse error contains the rule string. -/
theorem parseErrorMessage_contains (cronExp : String) (err : Error) :
    List.IsInfix cronExp.data (parseErrorMessage cronExp err).data :=
  ⟨"error parsing cron expression ".data, (" " ++ err).data, by
    simp [parseErrorMessage, String.data_append, List.append_assoc]⟩

/-- C10: for a recurring range that passes validation, if parsing the rule
fails then `getWindowForTargetTime` returns zero start and end with an error
whose message contains the rule string, and `GetTimeRangeWindow` returns
`(zero time, false, that error)`; if parsing succeeds neither returns an
error. -/
theorem parse_failure_is_surfaced (env : Env) (tr : TimeRange) (t : Time)
    (hv : env.ValidateTimeRange tr = none) (hf : tr.Frequency ≠ Frequency.Fixed) :
    (∀ err : Error, env.Parse (getDurationAndCronExp env tr t).2 = .error err →
        getWindowForTargetTime env tr t =
            (zeroTime, zeroTime,
              some (parseErrorMessage (getDurationAndCronExp env tr t).2 err))
          ∧ List.IsInfix (getDurationAndCronExp env tr t).2.data
              (parseErrorMessage (getDurationAndCronExp env tr t).2 err).data
          ∧ GetTimeRangeWindow env tr t =
            (zeroTime, false,
              some (parseErrorMessage (getDurationAndCronExp env tr t).2 err)))
      ∧ (∀ schedule : Schedule,
          env.Parse (getDurationAndCronExp env tr t).2 = .ok schedule →
          (getWindowForTargetTime env tr t).2.2 = none
            ∧ (GetTimeRangeWindow env tr t).2.2 = none) := by
  constructor
  · intro err hp
    refine ⟨getWindowForTargetTime_error env tr t err hp, parseErrorMessage_contains _ _, ?_⟩
    simp [GetTimeRangeWindow, hv, hf, getWindowForTargetTime_error env tr t err hp]
  · intro schedule hp
    refine ⟨by rw [getWindowForTargetTime_ok env tr t schedule hp], ?_⟩
    rw [GetTimeRangeWindow_of_window env tr t _ _ hv hf
      (getWindowForTargetTime_ok env tr t schedule hp)]
    split_ifs <;> rfl

/-- C10 on the nightly range: with the rejected rule `every night` the error
names the rule; with the rule `0 0 * * *` no error is returned. -/
theorem parse_failure_is_surfaced_witness :
    GetTimeRangeWindow brokenRuleEnv nightly (utc 2023 1 10 0 30)
        = (zeroTime, false,
            some "error parsing cron expression every night expected exactly 5 fields")
      ∧ (GetTimeRangeWindow dailyEnv nightly (utc 2023 1 10 0 30)).2.2 = none :=
  ⟨((parse_failure_is_surfaced brokenRuleEnv nightly (utc 2023 1 10 0 30)
        (by decide) (by decide)).1 "expected exactly 5 fields" rfl).2.2.trans (by decide),
    ((parse_failure_is_surfaced dailyEnv nightly (utc 2023 1 10 0 30)
        (by decide) (by decide)).2 midnightUTC rfl).2⟩

/-! ## The start of a resolved window -/

/-- The schedule of every midnight UTC returns the earliest midnight strictly
after the probe. -/
theorem midnightUTC_earliestAfter : midnightUTC.EarliestAfter := by
  constructor
  · intro p
    show p < (p / dayNanos + 1) * dayNanos
    unfold Time dayNanos Hour at *
    omega
  · intro p q h1 h2
    have h3 : q < (p / dayNanos + 1) * dayNanos := h2
    show (q / dayNanos + 1) * dayNanos = (p / dayNanos + 1) * dayNanos
    unfold Time dayNanos Hour at *
    omega

/-- For an evaluator that returns the earliest scheduled instant after the
probe, probing one positive duration before a scheduled instant `Next p` finds
a scheduled instant at or before `Next p` and less than that duration before
it. -/
theorem EarliestAfter.next_sub_le (schedule : Schedule) (h : schedule.EarliestAfter)
    (p : Time) (d : Duration) (hd : 0 < d) :
    schedule.Next (schedule.Next p - d) ≤ schedule.Next p
      ∧ schedule.Next p - d < schedule.Next (schedule.Next p - d) := by
  obtain ⟨hlt, hmono⟩ := h
  refine ⟨?_, hlt _⟩
  have hq := hlt (schedule.Next p - d)
  by_cases h1 : p ≤ schedule.Next p - d
  · have h2 : schedule.Next p - d < schedule.Next p := by unfold Time Duration at *; omega
    exact le_of_eq (hmono p _ h1 h2)
  · by_cases h2 : p < schedule.Next (schedule.Next p - d)
    · have h3 : schedule.Next p - d ≤ p := by unfold Time Duration at *; omega
      exact le_of_eq (hmono _ p h3 h2).symm
    · have h3 := hlt p
      unfold Time Duration at *
      omega

/-- Containment of a target at or after the clipped start and before the
clipped end. -/
theorem isTimeInBetween_of_le_of_lt (t windowStart windowEnd : Time)
    (h : windowStart ≤ t) (h2 : windowStart = t ∨ t < windowEnd) :
    isTimeInBetween t windowStart windowEnd = true := by
  simp only [isTimeInBetween, After, Before, Equal, Bool.or_eq_true, Bool.and_eq_true,
    decide_eq_true_eq]
  unfold Time at *
  omega

/-- Re-resolving at the start of an unclipped recurring window: if the
geometry at the start is the one the window was resolved with, the probe there
is one duration before the start, and the start is before a set `timeTo`, the
start is inside the window resolved at the start. -/
theorem GetTimeRangeWindow_at_unclipped_start (env : Env) (tr : TimeRange) (p : Time)
    (schedule : Schedule) (duration : Duration)
    (hv : env.ValidateTimeRange tr = none) (hf : tr.Frequency ≠ Frequency.Fixed)
    (hE : schedule.EarliestAfter) (hpos : 0 < duration)
    (hparse : env.Parse (getDurationAndCronExp env tr (schedule.Next p)).2 = .ok schedule)
    (hdur : (getDurationAndCronExp env tr (schedule.Next p)).1 = duration)
    (hprobe : currentTimeMinusWindowDuration env tr (schedule.Next p) duration
      = schedule.Next p - duration)
    (hfrom : tr.TimeFrom = zeroTime ∨ tr.TimeFrom ≤ schedule.Next p)
    (hto : tr.TimeTo = zeroTime ∨ schedule.Next p < tr.TimeTo) :
    (GetTimeRangeWindow env tr (schedule.Next p)).2.1 = true := by
  obtain ⟨h1, h2⟩ := EarliestAfter.next_sub_le schedule hE p duration hpos
  rw [GetTimeRangeWindow_of_window env tr _ _ _ hv hf
    (getWindowForTargetTime_ok env tr _ schedule hparse), hdur,
    getWindowStartAndEndTime_eq, hprobe]
  dsimp only
  rw [isTimeInBetween_of_le_of_lt]
  · rfl
  · unfold Time Duration zeroTime at *
    split_ifs with h3 <;> omega
  · unfold Time Duration zeroTime at *
    split_ifs with h3 h4 h4 <;> omega

/-- C7 (the code at the failing input): on the nightly range valid from
2023-01-10T12:00Z, which passes validation, with the evaluator of every
midnight UTC, the window resolved for 2023-01-10T00:30Z has the start
2023-01-10T12:00Z, raised to `timeFrom` past the end 01:00 of the occurrence;
`GetTimeRangeWindow` returns that start as the next window edge, and evaluated
at that start it reports `isTimeBetween = false`. -/
theorem start_of_resolved_window_outside :
    dailyEnv.ValidateTimeRange nightlySince = none
      ∧ nightlySince.Frequency ≠ Frequency.Fixed
      ∧ dailyEnv.Parse (getDurationAndCronExp dailyEnv nightlySince (utc 2023 1 10 0 30)).2
          = .ok midnightUTC
      ∧ midnightUTC.EarliestAfter
      ∧ getWindowForTargetTime dailyEnv nightlySince (utc 2023 1 10 0 30)
          = (utc 2023 1 10 12 0, utc 2023 1 10 1 0, none)
      ∧ GetTimeRangeWindow dailyEnv nightlySince (utc 2023 1 10 0 30)
          = (utc 2023 1 10 12 0, false, none)
      ∧ GetTimeRangeWindow dailyEnv nightlySince (utc 2023 1 10 12 0)
          = (utc 2023 1 11 0 0, false, none) :=
  ⟨by decide, by decide, rfl, midnightUTC_earliestAfter, by decide, by decide, by decide⟩

/-- Starts that are inside their own window: for a range that passes
validation, (Fixed) with `timeFrom ≤ timeTo`, `GetTimeRangeWindow` at `timeFrom`
is `(timeTo, true, nil)`; (recurring) if the rule parses to an evaluator that returns the earliest
scheduled instant strictly after the probe, the duration is positive, the
start of the window resolved for `t` is the evaluator's result (it was not
raised to `timeFrom`), the duration and rule at that start are those at `t`,
the probe at that start is the start minus the duration, and the start is
before `timeTo` when `timeTo` is set, then `GetTimeRangeWindow` at that start
reports `isTimeBetween = true`. -/
theorem start_of_window_is_inside (env : Env) (tr : TimeRange) (t : Time)
    (hv : env.ValidateTimeRange tr = none) :
    (tr.Frequency = Frequency.Fixed → tr.TimeFrom ≤ tr.TimeTo →
        GetTimeRangeWindow env tr tr.TimeFrom = (tr.TimeTo, true, none))
      ∧ (tr.Frequency ≠ Frequency.Fixed →
          ∀ (schedule : Schedule) (duration : Duration) (windowStart : Time),
            env.Parse (getDurationAndCronExp env tr t).2 = .ok schedule →
            duration = (getDurationAndCronExp env tr t).1 →
            windowStart = (getWindowStartAndEndTime env tr t duration schedule).1 →
            schedule.EarliestAfter →
            0 < duration →
            windowStart = schedule.Next (currentTimeMinusWindowDuration env tr t duration) →
            getDurationAndCronExp env tr windowStart = getDurationAndCronExp env tr t →
            currentTimeMinusWindowDuration env tr windowStart duration
              = windowStart - duration →
            (tr.TimeTo = zeroTime ∨ windowStart < tr.TimeTo) →
            (GetTimeRangeWindow env tr windowStart).2.1 = true) := by
  constructor
  · intro hf hle
    rw [GetTimeRangeWindow_fixed env tr _ hv hf, getWindowForFixedTime_eq]
    have h1 : ¬ tr.TimeTo < tr.TimeFrom := not_lt.mpr hle
    simp [h1]
  · intro hf schedule duration windowStart hparse hdur hws hE hpos hun hgeo hprobe hto
    have hfrom : tr.TimeFrom = zeroTime ∨ tr.TimeFrom ≤ windowStart := by
      rw [getWindowStartAndEndTime_eq] at hws
      dsimp only at hws
      rw [← hun] at hws
      by_cases h1 : tr.TimeFrom ≠ zeroTime ∧ windowStart < tr.TimeFrom
      · rw [if_pos h1] at hws
        exact Or.inr (le_of_eq hws.symm)
      · by_cases h2 : tr.TimeFrom = zeroTime
        · exact Or.inl h2
        · exact Or.inr (not_lt.mp (fun h3 => h1 ⟨h2, h3⟩))
    subst hun
    exact GetTimeRangeWindow_at_unclipped_start env tr _ schedule duration hv hf hE hpos
      (by rw [hgeo]; exact hparse) (by rw [hgeo]; exact hdur.symm) hprobe hfrom hto

/-- Starts inside their own window: the January 2023 Fixed window, and the
bounded nightly range for the window resolved at 2023-01-12T00:30Z, which
starts at 2023-01-12T00:00Z. -/
theorem start_of_window_is_inside_witness :
    GetTimeRangeWindow dailyEnv january2023 january2023.TimeFrom
        = (january2023.TimeTo, true, none)
      ∧ (getWindowStartAndEndTime dailyEnv nightlyBounded (utc 2023 1 12 0 30) Hour
            midnightUTC).1 = utc 2023 1 12 0 0
      ∧ (GetTimeRangeWindow dailyEnv nightlyBounded (utc 2023 1 12 0 0)).2.1 = true :=
  ⟨(start_of_window_is_inside dailyEnv january2023 (utc 2023 1 15 12 0) (by decide)).1
      (by decide) (by decide),
    by decide,
    (start_of_window_is_inside dailyEnv nightlyBounded (utc 2023 1 12 0 30) (by decide)).2
      (by decide) midnightUTC Hour (utc 2023 1 12 0 0) rfl (by decide) (by decide)
      midnightUTC_earliestAfter (by decide) (by decide) (by decide) (by decide)
      (Or.inr (by decide))⟩

/-! ## The containment test -/

/-- The containment test as a proposition on the order of the instants. -/
theorem isTimeInBetween_eq_true_iff (t periodStart periodEnd : Time) :
    isTimeInBetween t periodStart periodEnd = true
      ↔ (periodStart < t ∧ t < periodEnd) ∨ t = periodStart := by
  simp [isTimeInBetween, After, Before, Equal]

/-- C11: for all instants, with no order assumed between start and end,
`isTimeInBetween t start end` is true if and only if `start < t` and `t < end`,
or `t = start`; at `t = end` it is false whenever `end ≠ start`. -/
theorem isTimeInBetween_spec (t periodStart periodEnd : Time) :
    (isTimeInBetween t periodStart periodEnd = true
        ↔ (periodStart < t ∧ t < periodEnd) ∨ t = periodStart)
      ∧ (periodEnd ≠ periodStart →
          isTimeInBetween periodEnd periodStart periodEnd = false) := by
  refine ⟨isTimeInBetween_eq_true_iff t periodStart periodEnd, fun hne => ?_⟩
  rw [← Bool.not_eq_true, isTimeInBetween_eq_true_iff]
  rintro (⟨_, h2⟩ | h2)
  · exact lt_irrefl _ h2
  · exact hne h2

/-- C11 on one January day: the start 00:00 is inside the window 00:00-01:00,
the end 01:00 is not. -/
theorem isTimeInBetween_spec_witness :
    isTimeInBetween (utc 2023 1 10 0 0) (utc 2023 1 10 0 0) (utc 2023 1 10 1 0) = true
      ∧ isTimeInBetween (utc 2023 1 10 1 0) (utc 2023 1 10 0 0) (utc 2023 1 10 1 0) = false :=
  ⟨(isTimeInBetween_spec (utc 2023 1 10 0 0) (utc 2023 1 10 0 0) (utc 2023 1 10 1 0)).1.mpr
      (Or.inr rfl),
    (isTimeInBetween_spec (utc 2023 1 10 1 0) (utc 2023 1 10 0 0) (utc 2023 1 10 1 0)).2
      (by decide)⟩

/-- C16: for a Fixed range that passes validation, with `timeFrom ≤ timeTo`,
and every target `t`, `GetTimeRangeWindow` returns no error and reports
`isTimeBetween = true` if and only if `timeFrom ≤ t` and `t < timeTo`, or
`t = timeFrom`; whenever it reports `false` the boundary is `timeFrom` if
`t < timeFrom` and the zero time otherwise. -/
theorem GetTimeRangeWindow_fixed_classification (env : Env) (tr : TimeRange) (t : Time)
    (hv : env.ValidateTimeRange tr = none) (hf : tr.Frequency = Frequency.Fixed)
    (hle : tr.TimeFrom ≤ tr.TimeTo) :
    (GetTimeRangeWindow env tr t).2.2 = none
      ∧ ((GetTimeRangeWindow env tr t).2.1 = true
          ↔ (tr.TimeFrom ≤ t ∧ t < tr.TimeTo) ∨ t = tr.TimeFrom)
      ∧ ((GetTimeRangeWindow env tr t).2.1 = false →
          (GetTimeRangeWindow env tr t).1
            = if t < tr.TimeFrom then tr.TimeFrom else zeroTime) := by
  rw [GetTimeRangeWindow_fixed env tr t hv hf, getWindowForFixedTime_eq]
  unfold Time at *
  refine ⟨rfl, ?_, ?_⟩
  · split_ifs with h1 h2 h3 <;> simp <;> omega
  · split_ifs with h1 h2 h3 <;> first | (simp; done) | (simp; omega)

/-- C16 on the January 2023 window at its own end 2023-01-31T23:59Z: reported
outside, with the zero time as boundary. -/
theorem GetTimeRangeWindow_fixed_classification_witness :
    (GetTimeRangeWindow dailyEnv january2023 (utc 2023 1 31 23 59)).2.1 = false
      ∧ (GetTimeRangeWindow dailyEnv january2023 (utc 2023 1 31 23 59)).1
          = if utc 2023 1 31 23 59 < january2023.TimeFrom then january2023.TimeFrom
            else zeroTime :=
  ⟨by decide,
    (GetTimeRangeWindow_fixed_classification dailyEnv january2023 (utc 2023 1 31 23 59)
      (by decide) (by decide) (by decide)).2.2 (by decide)⟩

/-! ## Determinism -/

/-- C12: `GetTimeRangeWindow` is deterministic, with no hidden state: two calls
on the same range and target, with collaborators that return the same values
on that range and target (the same validation result, cadence, calendar reading
and recurrence evaluator), return the same boundary, `isTimeBetween` and
error. -/
theorem GetTimeRangeWindow_deterministic (env env' : Env) (tr : TimeRange) (t : Time)
    (hV : env.ValidateTimeRange tr = env'.ValidateTimeRange tr)
    (hD : ∀ n, env.getDuration tr n = env'.getDuration tr n)
    (hC : ∀ n, env.getCron tr n = env'.getCron tr n)
    (hM : env.isMonthOverlapping tr = env'.isMonthOverlapping tr)
    (hW : env.isToHourMinuteBeforeWindowEnd tr t = env'.isToHourMinuteBeforeWindowEnd tr t)
    (hP : ∀ cronExp, env.Parse cronExp = env'.Parse cronExp)
    (hDay : env.Day t = env'.Day t) (hMonth : env.Month t = env'.Month t)
    (hYear : env.Year t = env'.Year t) :
    GetTimeRangeWindow env tr t = GetTimeRangeWindow env' tr t := by
  have hI : isInsideOverLap env tr t = isInsideOverLap env' tr t := by
    simp only [isInsideOverLap, hDay, hW]
  have hG : getDurationAndCronExp env tr t = getDurationAndCronExp env' tr t := by
    simp only [getDurationAndCronExp, calculateLastDayOfMonthForOverlappingWindow,
      getMonthAndYearForPreviousWindow, hI, hM, hMonth, hYear, hD, hC]
  have hB : ∀ d, currentTimeMinusWindowDuration env tr t d
      = currentTimeMinusWindowDuration env' tr t d := by
    intro d
    simp only [currentTimeMinusWindowDuration, getAdjustedDuration, hI, hM, hMonth, hYear]
  have hS : ∀ d schedule, getWindowStartAndEndTime env tr t d schedule
      = getWindowStartAndEndTime env' tr t d schedule := by
    intro d schedule
    simp only [getWindowStartAndEndTime, hB]
  have hT : getWindowForTargetTime env tr t = getWindowForTargetTime env' tr t := by
    simp only [getWindowForTargetTime, hG, hP, hS]
  simp only [GetTimeRangeWindow, hV, hT]

/-- C12 on the nightly range at 2023-01-10T00:30Z, for the daily environment
and the one whose calendar is frozen on that day. -/
theorem GetTimeRangeWindow_deterministic_witness :
    GetTimeRangeWindow dailyEnv nightly (utc 2023 1 10 0 30)
      = GetTimeRangeWindow dailyEnvFrozen nightly (utc 2023 1 10 0 30) :=
  GetTimeRangeWindow_deterministic dailyEnv dailyEnvFrozen nightly (utc 2023 1 10 0 30)
    rfl (fun _ => rfl) (fun _ => rfl) rfl rfl (fun _ => rfl)
    (by decide) (by decide) (by decide)

/-! ## The probe point -/

/-- Values inside the `int64` range are not changed by the wrap-around. -/
theorem wrapInt64_eq_self (x : Int) (h1 : -(2 : Int) ^ 63 ≤ x) (h2 : x < (2 : Int) ^ 63) :
    wrapInt64 x = x := by
  unfold wrapInt64
  omega

/-- The last day of a month is between 28 and 31. -/
theorem getLastDayOfMonth_range (year month : Int) :
    28 ≤ getLastDayOfMonth year month ∧ getLastDayOfMonth year month ≤ 31 := by
  unfold getLastDayOfMonth
  split_ifs <;> omega

/-- The probe without the month-length adjustment is the target minus the
duration, for a duration whose negation does not overflow. -/
theorem probe_of_unadjusted (env : Env) (tr : TimeRange) (t : Time) (d : Duration)
    (h : (env.isMonthOverlapping tr && !isInsideOverLap env tr t) = false)
    (hlo : -(2 : Int) ^ 63 < d) (hhi : d < (2 : Int) ^ 63) :
    currentTimeMinusWindowDuration env tr t d = t - d := by
  simp only [currentTimeMinusWindowDuration, h, Add, Bool.false_eq_true, if_false]
  rw [wrapInt64_eq_self] <;> unfold Time Duration at * <;> omega

/-- The probe with the month-length adjustment. -/
theorem probe_of_adjusted (env : Env) (tr : TimeRange) (t : Time) (d : Duration)
    (h : (env.isMonthOverlapping tr && !isInsideOverLap env tr t) = true) :
    currentTimeMinusWindowDuration env tr t d
      = t + wrapInt64 (-1 * getAdjustedDuration env tr t d d) := by
  simp only [currentTimeMinusWindowDuration, h, Add, if_true]

/-- C13 (as stated, refuted): on the month-end range, which is
month-overlapping, the target 2023-03-15T12:00Z is outside the overlap region
and its probe, for the governing duration of 6 days, is 2023-03-12T12:00Z, not
the target minus the duration; the target 2023-03-02T12:00Z is inside the
overlap region and its probe, for the governing duration of 3 days, is exactly
the target minus the duration. -/
theorem probe_adjusted_outside_overlap :
    monthEndEnv.isMonthOverlapping monthEnd = true
      ∧ isInsideOverLap monthEndEnv monthEnd (utc 2023 3 15 12 0) = false
      ∧ (getDurationAndCronExp monthEndEnv monthEnd (utc 2023 3 15 12 0)).1 = 6 * dayNanos
      ∧ currentTimeMinusWindowDuration monthEndEnv monthEnd (utc 2023 3 15 12 0)
          (6 * dayNanos) = utc 2023 3 12 12 0
      ∧ currentTimeMinusWindowDuration monthEndEnv monthEnd (utc 2023 3 15 12 0)
          (6 * dayNanos) ≠ utc 2023 3 15 12 0 - 6 * dayNanos
      ∧ isInsideOverLap monthEndEnv monthEnd (utc 2023 3 2 12 0) = true
      ∧ (getDurationAndCronExp monthEndEnv monthEnd (utc 2023 3 2 12 0)).1 = 3 * dayNanos
      ∧ currentTimeMinusWindowDuration monthEndEnv monthEnd (utc 2023 3 2 12 0)
          (3 * dayNanos) = utc 2023 3 2 12 0 - 3 * dayNanos :=
  ⟨by decide, by decide, by decide, by decide, by decide, by decide, by decide, by decide⟩

/-- C13 (amended): in `currentTimeMinusWindowDuration` the month-length
adjustment of the probe is applied exactly when the schedule is
month-overlapping and the target is not in the overlap region
(`isMonthOverlapping` holds and `isInsideOverLap targetTime` does not); for
every other range and target, and a duration whose negation does not overflow,
the probe is exactly the target minus the duration. -/
theorem probe_adjustment_condition (env : Env) (tr : TimeRange) (t : Time) (d : Duration)
    (hlo : -(2 : Int) ^ 63 < d) (hhi : d < (2 : Int) ^ 63) :
    currentTimeMinusWindowDuration env tr t d =
      if env.isMonthOverlapping tr = true ∧ isInsideOverLap env tr t = false then
        t + wrapInt64 (-1 * getAdjustedDuration env tr t d d)
      else
        t - d := by
  by_cases h : (env.isMonthOverlapping tr && !isInsideOverLap env tr t) = true
  · rw [probe_of_adjusted env tr t d h, if_pos]
    simpa using h
  · rw [probe_of_unadjusted env tr t d (by simpa using h) hlo hhi, if_neg]
    simpa using h

/-- The amended C13 on the month-end range: inside the overlap region, at
2023-03-02T12:00Z, the probe is the target minus the 3 days of the duration. -/
theorem probe_adjustment_condition_witness :
    currentTimeMinusWindowDuration monthEndEnv monthEnd (utc 2023 3 2 12 0) (3 * dayNanos)
      = utc 2023 2 27 12 0 :=
  (probe_adjustment_condition monthEndEnv monthEnd (utc 2023 3 2 12 0) (3 * dayNanos)
    (by decide) (by decide)).trans (by decide)

/-- C14: for a target whose day of the month is at least 1, as Go's `Day`
always is, `getMonthAndYearForPreviousWindow` returns the (month, year) just
before the target's month, January stepping to December of the previous year,
exactly when the schedule is month-overlapping and the target's day of the
month is less than `dayTo`, or equal to `dayTo` with its time of day before the
window-end cutoff; otherwise it returns the target's own (month, year). -/
theorem getMonthAndYearForPreviousWindow_spec (env : Env) (tr : TimeRange) (t : Time)
    (hday : 1 ≤ env.Day t) :
    getMonthAndYearForPreviousWindow env tr t =
      if env.isMonthOverlapping tr = true
          ∧ (env.Day t < tr.DayTo
            ∨ (env.Day t = tr.DayTo ∧ env.isToHourMinuteBeforeWindowEnd tr t = true)) then
        (if env.Month t = 1 then (12, env.Year t - 1) else (env.Month t - 1, env.Year t))
      else
        (env.Month t, env.Year t) := by
  have h1 : ¬ env.Day t < 1 := not_lt.mpr hday
  simp only [getMonthAndYearForPreviousWindow, isInsideOverLap, getPreviousMonthAndYear, h1,
    if_false, Bool.and_eq_true, Bool.or_eq_true, decide_eq_true_eq]

/-- C14 on the month-end range with `dayTo = 3`: a target on the 2nd of March
2023 is resolved with February 2023, one on the 2nd of January with December
of the previous year, one on the 15th of March with March itself. -/
theorem getMonthAndYearForPreviousWindow_spec_witness :
    getMonthAndYearForPreviousWindow monthEndEnv monthEnd (utc 2023 3 2 12 0) = (2, 2023)
      ∧ getMonthAndYearForPreviousWindow monthEndEnv monthEnd (utc 2023 1 2 12 0) = (12, 2022)
      ∧ getMonthAndYearForPreviousWindow monthEndEnv monthEnd (utc 2023 3 15 12 0)
          = (3, 2023) :=
  ⟨(getMonthAndYearForPreviousWindow_spec monthEndEnv monthEnd (utc 2023 3 2 12 0)
      (by decide)).trans (by decide),
    (getMonthAndYearForPreviousWindow_spec monthEndEnv monthEnd (utc 2023 1 2 12 0)
      (by decide)).trans (by decide),
    (getMonthAndYearForPreviousWindow_spec monthEndEnv monthEnd (utc 2023 3 15 12 0)
      (by decide)).trans (by decide)⟩

/-- C15: whenever the probe adjustment is applied (the schedule is
month-overlapping and the target is not in the overlap region), for a target
`t` and a governing duration `d` whose adjusted value does not overflow, the
probe is `t - (d - (L_cur - L_prev) * 24h)`, where `L_cur` is the last day of
the target's month and `L_prev` the last day of the month before it, with the
year rollover for January. -/
theorem adjusted_probe_value (env : Env) (tr : TimeRange) (t : Time) (d : Duration)
    (hM : env.isMonthOverlapping tr = true) (hI : isInsideOverLap env tr t = false)
    (hlo : -(2 : Int) ^ 63
      < d - (getLastDayOfMonth (env.Year t) (env.Month t)
            - getLastDayOfMonth (getPreviousMonthAndYear (env.Month t) (env.Year t)).2
                (getPreviousMonthAndYear (env.Month t) (env.Year t)).1) * (24 * Hour))
    (hhi : d - (getLastDayOfMonth (env.Year t) (env.Month t)
            - getLastDayOfMonth (getPreviousMonthAndYear (env.Month t) (env.Year t)).2
                (getPreviousMonthAndYear (env.Month t) (env.Year t)).1) * (24 * Hour)
      < (2 : Int) ^ 63) :
    currentTimeMinusWindowDuration env tr t d =
      t - (d - (getLastDayOfMonth (env.Year t) (env.Month t)
            - getLastDayOfMonth (getPreviousMonthAndYear (env.Month t) (env.Year t)).2
                (getPreviousMonthAndYear (env.Month t) (env.Year t)).1) * (24 * Hour)) := by
  rw [probe_of_adjusted env tr t d (by simp [hM, hI])]
  simp only [getAdjustedDuration]
  obtain ⟨a1, a2⟩ := getLastDayOfMonth_range (env.Year t) (env.Month t)
  obtain ⟨b1, b2⟩ := getLastDayOfMonth_range
    (getPreviousMonthAndYear (env.Month t) (env.Year t)).2
    (getPreviousMonthAndYear (env.Month t) (env.Year t)).1
  generalize getLastDayOfMonth (env.Year t) (env.Month t) = lcur at *
  generalize getLastDayOfMonth (getPreviousMonthAndYear (env.Month t) (env.Year t)).2
    (getPreviousMonthAndYear (env.Month t) (env.Year t)).1 = lprev at *
  unfold Time Duration Hour at *
  rw [wrapInt64_eq_self ((lcur - lprev) * 3600000000000) (by omega) (by omega),
    wrapInt64_eq_self ((lcur - lprev) * 3600000000000 * 24) (by omega) (by omega),
    wrapInt64_eq_self (d - (lcur - lprev) * 3600000000000 * 24) (by omega) (by omega),
    wrapInt64_eq_self (-1 * (d - (lcur - lprev) * 3600000000000 * 24)) (by omega) (by omega)]
  omega

/-- C15 on the month-end range at 2023-03-15T12:00Z, outside the overlap
region: March has 31 days and February 28, so with the duration of 6 days the
probe is the target minus 3 days. -/
theorem adjusted_probe_value_witness :
    currentTimeMinusWindowDuration monthEndEnv monthEnd (utc 2023 3 15 12 0) (6 * dayNanos)
      = utc 2023 3 15 12 0 - (6 * dayNanos - (31 - 28) * (24 * Hour)) :=
  (adjusted_probe_value monthEndEnv monthEnd (utc 2023 3 15 12 0) (6 * dayNanos)
    (by decide) (by decide) (by decide) (by decide)).trans (by decide)

/-! ## Recurring windows: the reported state and the target -/

/-- C17: for a recurring range that passes validation, with no validity bounds
and not month-overlapping, whose rule parses to an evaluator that returns an
instant strictly after its probe, and a duration whose negation does not
overflow: if `GetTimeRangeWindow` reports `isTimeBetween = false` the returned
instant is the window start and is strictly after the target, and if it
reports `true` then `windowStart ≤ t < windowStart + duration`. -/
theorem recurring_unbounded_classification (env : Env) (tr : TimeRange) (t : Time)
    (schedule : Schedule)
    (hv : env.ValidateTimeRange tr = none) (hf : tr.Frequency ≠ Frequency.Fixed)
    (hF : tr.TimeFrom = zeroTime) (hT : tr.TimeTo = zeroTime)
    (hM : env.isMonthOverlapping tr = false)
    (hp : env.Parse (getDurationAndCronExp env tr t).2 = .ok schedule)
    (hnext : ∀ p : Time, p < schedule.Next p)
    (hlo : -(2 : Int) ^ 63 < (getDurationAndCronExp env tr t).1)
    (hhi : (getDurationAndCronExp env tr t).1 < (2 : Int) ^ 63) :
    ((GetTimeRangeWindow env tr t).2.1 = false →
        (GetTimeRangeWindow env tr t).1 = (getWindowForTargetTime env tr t).1
          ∧ t < (getWindowForTargetTime env tr t).1)
      ∧ ((GetTimeRangeWindow env tr t).2.1 = true →
          (getWindowForTargetTime env tr t).1 ≤ t
            ∧ t < (getWindowForTargetTime env tr t).1 + (getDurationAndCronExp env tr t).1) := by
  have hw := getWindowForTargetTime_ok env tr t schedule hp
  rw [GetTimeRangeWindow_of_window env tr t _ _ hv hf hw, hw, getWindowStartAndEndTime_eq,
    probe_of_unadjusted env tr t _ (by simp [hM]) hlo hhi]
  simp only [hF, hT, ne_eq, not_true_eq_false, false_and, if_false]
  have hs := hnext (t - (getDurationAndCronExp env tr t).1)
  generalize schedule.Next (t - (getDurationAndCronExp env tr t).1) = s at *
  generalize (getDurationAndCronExp env tr t).1 = d at *
  by_cases hb : isTimeInBetween t s (s + d) = true
  · rw [if_pos hb]
    rw [isTimeInBetween_eq_true_iff] at hb
    refine ⟨fun h => by simp at h, fun _ => ?_⟩
    unfold Time Duration at *
    omega
  · rw [if_neg hb]
    rw [isTimeInBetween_eq_true_iff] at hb
    refine ⟨fun _ => ⟨rfl, ?_⟩, fun h => by simp at h⟩
    unfold Time Duration at *
    omega

/-- C17 on the unbounded nightly range: at 12:00 the state is outside and the
returned start, the next midnight, is after the target; at 00:30 the state is
inside the window that started at 00:00. -/
theorem recurring_unbounded_classification_witness :
    (GetTimeRangeWindow dailyEnv nightly (utc 2023 1 10 12 0)).1
        = (getWindowForTargetTime dailyEnv nightly (utc 2023 1 10 12 0)).1
      ∧ utc 2023 1 10 12 0 < (getWindowForTargetTime dailyEnv nightly (utc 2023 1 10 12 0)).1
      ∧ (getWindowForTargetTime dailyEnv nightly (utc 2023 1 10 0 30)).1 ≤ utc 2023 1 10 0 30
      ∧ utc 2023 1 10 0 30
          < (getWindowForTargetTime dailyEnv nightly (utc 2023 1 10 0 30)).1
            + (getDurationAndCronExp dailyEnv nightly (utc 2023 1 10 0 30)).1 :=
  have h1 := (recurring_unbounded_classification dailyEnv nightly (utc 2023 1 10 12 0)
    midnightUTC (by decide) (by decide) (by decide) (by decide) (by decide) rfl
    midnightUTC_earliestAfter.1 (by decide) (by decide)).1 (by decide)
  have h2 := (recurring_unbounded_classification dailyEnv nightly (utc 2023 1 10 0 30)
    midnightUTC (by decide) (by decide) (by decide) (by decide) (by decide) rfl
    midnightUTC_earliestAfter.1 (by decide) (by decide)).2 (by decide)
  ⟨h1.1, h1.2, h2.1, h2.2⟩

/-- The part of the validity bounds that an inside report respects: for a
recurring range that passes validation and whose rule parses, a target
reported inside is at or after a set `timeFrom`, and before a set `timeTo`
unless it is the window start itself. -/
theorem recurring_inside_bounds (env : Env) (tr : TimeRange) (t : Time)
    (schedule : Schedule)
    (hv : env.ValidateTimeRange tr = none) (hf : tr.Frequency ≠ Frequency.Fixed)
    (hp : env.Parse (getDurationAndCronExp env tr t).2 = .ok schedule)
    (hin : (GetTimeRangeWindow env tr t).2.1 = true) :
    (tr.TimeFrom ≠ zeroTime → tr.TimeFrom ≤ t)
      ∧ (tr.TimeTo ≠ zeroTime → t ≠ (getWindowForTargetTime env tr t).1 → t < tr.TimeTo) := by
  have hw := getWindowForTargetTime_ok env tr t schedule hp
  rw [GetTimeRangeWindow_of_window env tr t _ _ hv hf hw] at hin
  rw [hw]
  have hb : isTimeInBetween t
      (getWindowStartAndEndTime env tr t (getDurationAndCronExp env tr t).1 schedule).1
      (getWindowStartAndEndTime env tr t (getDurationAndCronExp env tr t).1 schedule).2
      = true := by
    by_contra hc
    rw [if_neg hc] at hin
    simp at hin
  rw [isTimeInBetween_eq_true_iff, getWindowStartAndEndTime_eq] at hb
  rw [getWindowStartAndEndTime_eq]
  dsimp only at hb ⊢
  generalize schedule.Next (currentTimeMinusWindowDuration env tr t
    (getDurationAndCronExp env tr t).1) = s at *
  generalize (getDurationAndCronExp env tr t).1 = d at *
  unfold Time Duration at *
  refine ⟨fun hF => ?_, fun hT hne => ?_⟩
  · split_ifs at hb <;> omega
  · split_ifs at hb hne <;> omega

/-- C18 (the code at the failing input): on the nightly range valid from
2023-01-10T00:00Z to 2023-01-20T00:00Z, which passes validation with both
bounds set, the target 2023-01-21T00:00Z is after `timeTo` and
`GetTimeRangeWindow` reports `isTimeBetween = true`, with `timeTo` as
boundary. -/
theorem recurring_inside_after_timeTo :
    dailyEnv.ValidateTimeRange nightlyBounded = none
      ∧ nightlyBounded.Frequency ≠ Frequency.Fixed
      ∧ nightlyBounded.TimeFrom ≠ zeroTime ∧ nightlyBounded.TimeTo ≠ zeroTime
      ∧ nightlyBounded.TimeTo < utc 2023 1 21 0 0
      ∧ getWindowForTargetTime dailyEnv nightlyBounded (utc 2023 1 21 0 0)
          = (utc 2023 1 21 0 0, utc 2023 1 20 0 0, none)
      ∧ GetTimeRangeWindow dailyEnv nightlyBounded (utc 2023 1 21 0 0)
          = (utc 2023 1 20 0 0, true, none) := by
  decide

end TimeRangeLib
